import Mathlib

/-
Shallow embedding of src/src/consensus/params.h from the
Bitcoin-Clashic/wallet-confidentialtx repository, together with the parts
of the rule-activation design (spec.md) whose implementation is not among
the provided sources, modelled from the spec where so marked.

Conventions of the embedding:
- C++ machine integers become Nat (unsigned) or Int (signed); where a claim
  hinges on a width bound, the bound 2^w appears explicitly.
- uint256 / CAsset values (opaque 32-byte ids) become Nat.
- CScript and std::vector of bytes become List Nat; a default-constructed
  CScript is the empty list.
- Optional of uint32_t becomes Option Nat.
- Fallible operations return Option; where the C++ expression is undefined
  (division by zero) the embedding returns none.
- A const member function call is embedded as a function returning the
  result paired with the receiver state after the call.
-/

namespace Consensus

/-- The DeploymentPos enum from params.h: identifiers of version-bits
deployments, with the count sentinel handled by the finiteness of the type. -/
inductive DeploymentPos
  | DEPLOYMENT_TESTDUMMY
  | DEPLOYMENT_TAPROOT
  | DEPLOYMENT_DYNA_FED
deriving DecidableEq

/-- List of all deployment positions, mirroring the enum range
below MAX_VERSION_BITS_DEPLOYMENTS. -/
def allDeploymentPos : List DeploymentPos :=
  [DeploymentPos.DEPLOYMENT_TESTDUMMY, DeploymentPos.DEPLOYMENT_TAPROOT,
   DeploymentPos.DEPLOYMENT_DYNA_FED]

/-- Struct for each individual consensus rule change using BIP9
(struct BIP9Deployment in params.h). nStartTime and nTimeout are int64_t,
interpreted as block heights on Elements chains; nPeriod and nThreshold are
Optional of uint32_t with in-class initializer nullopt. -/
structure BIP9Deployment where
  bit : Int
  nStartTime : Int
  nTimeout : Int
  nPeriod : Option Nat
  nThreshold : Option Nat
deriving DecidableEq

/-- Constant for nTimeout very far in the future:
std::numeric_limits of int64_t, its max(), which is 2^63 - 1. -/
def BIP9Deployment.NO_TIMEOUT : Int := 2 ^ 63 - 1

/-- Special value for nStartTime indicating that the deployment is always
active (params.h line 53). -/
def BIP9Deployment.ALWAYS_ACTIVE : Int := -1

/-- Construction of a BIP9Deployment as the C++ default constructor leaves
it: the scalar members bit, nStartTime, nTimeout carry whatever values are
supplied (indeterminate in C++, hence parameters here), while the two
in-class initializers set nPeriod and nThreshold to nullopt. -/
def BIP9Deployment.mkDefault (bit nStartTime nTimeout : Int) : BIP9Deployment :=
  { bit := bit, nStartTime := nStartTime, nTimeout := nTimeout,
    nPeriod := none, nThreshold := none }

/-- Parameters that influence chain consensus (struct Consensus Params in
params.h), field for field. Class-typed members keep their C++ names; the
fixed array vDeployments indexed by the enum becomes a function from
DeploymentPos. -/
structure Params where
  hashGenesisBlock : Nat
  nSubsidyHalvingInterval : Int
  BIP16Exception : Nat
  BIP34Height : Int
  BIP34Hash : Nat
  BIP65Height : Int
  BIP66Height : Int
  CSVHeight : Int
  SegwitHeight : Int
  MinBIP9WarningHeight : Int
  nRuleChangeActivationThreshold : Nat
  nMinerConfirmationWindow : Nat
  vDeployments : DeploymentPos → BIP9Deployment
  powLimit : Nat
  fPowAllowMinDifficultyBlocks : Bool
  fPowNoRetargeting : Bool
  nPowTargetSpacing : Int
  nPowTargetTimespan : Int
  nMinimumChainWork : Nat
  defaultAssumeValid : Nat
  signet_blocks : Bool
  signet_challenge : List Nat
  mandatory_coinbase_destination : List Nat
  genesis_subsidy : Int
  subsidy_asset : Nat
  connect_genesis_outputs : Bool
  has_parent_chain : Bool
  parentChainPowLimit : Nat
  pegin_min_depth : Nat
  parent_chain_signblockscript : List Nat
  fedpegScript : List Nat
  pegged_asset : Nat
  parent_pegged_asset : Nat
  genesis_style : String
  signblockscript : List Nat
  max_block_signature_size : Nat
  dynamic_epoch_length : Nat
  first_extension_space : List (List Nat)
  total_valid_epochs : Nat
  elements_mode : Bool

/-- DifficultyAdjustmentInterval from params.h line 94: returns
nPowTargetTimespan / nPowTargetSpacing, int64_t division truncating toward
zero; the C++ expression is undefined when the divisor is zero, which the
embedding renders as none. -/
def Params.DifficultyAdjustmentInterval (p : Params) : Option Int :=
  if p.nPowTargetSpacing = 0 then none
  else some (p.nPowTargetTimespan.tdiv p.nPowTargetSpacing)

/-- ParentChainHasPow from params.h line 117: compares
parent_chain_signblockscript against a default-constructed CScript, which
is the empty script. -/
def Params.ParentChainHasPow (p : Params) : Bool :=
  p.parent_chain_signblockscript == ([] : List Nat)

/-- Embedding of a call to the const member function
DifficultyAdjustmentInterval: result paired with the receiver state after
the call. The body only reads fields, so the state component is the
receiver unchanged. -/
def Params.DifficultyAdjustmentIntervalCall (p : Params) : Option Int × Params :=
  (p.DifficultyAdjustmentInterval, p)

/-- Embedding of a call to the const member function ParentChainHasPow:
result paired with the receiver state after the call. -/
def Params.ParentChainHasPowCall (p : Params) : Bool × Params :=
  (p.ParentChainHasPow, p)

/-- Construction of a Params as the C++ default constructor leaves it:
members with in-class initializers take those initializers
(signet_blocks = false, dynamic_epoch_length = 2^32 - 1,
total_valid_epochs = 1, elements_mode = false), class-typed members are
default-constructed (zero ids, empty scripts, vectors and string), each
entry of the vDeployments array is a default-constructed BIP9Deployment
(scalars indeterminate, hence supplied per entry, overrides nullopt), and
the remaining scalar members are indeterminate, hence parameters. -/
def Params.defaultConstruct
    (nSubsidyHalvingInterval BIP34Height BIP65Height BIP66Height CSVHeight
       SegwitHeight MinBIP9WarningHeight : Int)
    (nRuleChangeActivationThreshold nMinerConfirmationWindow : Nat)
    (deplScalars : DeploymentPos → Int × Int × Int)
    (fPowAllowMinDifficultyBlocks fPowNoRetargeting : Bool)
    (nPowTargetSpacing nPowTargetTimespan : Int)
    (genesis_subsidy : Int)
    (connect_genesis_outputs has_parent_chain : Bool)
    (pegin_min_depth max_block_signature_size : Nat) : Params :=
  { hashGenesisBlock := 0
    nSubsidyHalvingInterval := nSubsidyHalvingInterval
    BIP16Exception := 0
    BIP34Height := BIP34Height
    BIP34Hash := 0
    BIP65Height := BIP65Height
    BIP66Height := BIP66Height
    CSVHeight := CSVHeight
    SegwitHeight := SegwitHeight
    MinBIP9WarningHeight := MinBIP9WarningHeight
    nRuleChangeActivationThreshold := nRuleChangeActivationThreshold
    nMinerConfirmationWindow := nMinerConfirmationWindow
    vDeployments := fun i =>
      BIP9Deployment.mkDefault (deplScalars i).1 (deplScalars i).2.1 (deplScalars i).2.2
    powLimit := 0
    fPowAllowMinDifficultyBlocks := fPowAllowMinDifficultyBlocks
    fPowNoRetargeting := fPowNoRetargeting
    nPowTargetSpacing := nPowTargetSpacing
    nPowTargetTimespan := nPowTargetTimespan
    nMinimumChainWork := 0
    defaultAssumeValid := 0
    signet_blocks := false
    signet_challenge := []
    mandatory_coinbase_destination := []
    genesis_subsidy := genesis_subsidy
    subsidy_asset := 0
    connect_genesis_outputs := connect_genesis_outputs
    has_parent_chain := has_parent_chain
    parentChainPowLimit := 0
    pegin_min_depth := pegin_min_depth
    parent_chain_signblockscript := []
    fedpegScript := []
    pegged_asset := 0
    parent_pegged_asset := 0
    genesis_style := ""
    signblockscript := []
    max_block_signature_size := max_block_signature_size
    dynamic_epoch_length := 2 ^ 32 - 1
    first_extension_space := []
    total_valid_epochs := 1
    elements_mode := false }

/-- Modelled from the spec: the error taxonomy of section 7. The
configuration loader that raises these is not among the provided sources
(only the Params data model is); the three construction-time conditions
are taken verbatim from the spec list. -/
inductive ConfigurationError
  | duplicateBits
  | zeroValidEpochWindow
  | zeroEpochLength
deriving DecidableEq

/-- Modelled from the spec: two deployments are concurrently live when
their activation attempts can be in flight at the same heights, i.e. their
height intervals from startHeight to timeoutHeight overlap (the spec
phrase is deployments simultaneously in STARTED or LOCKED_IN state). -/
def concurrentlyLive (d e : BIP9Deployment) : Bool :=
  decide (d.nStartTime < e.nTimeout) && decide (e.nStartTime < d.nTimeout)

/-- Modelled from the spec: the duplicate-bit check of section 7, over the
deployments held in a Params value: some two distinct concurrently live
deployments share a signaling-bit position. -/
def hasDuplicateBits (p : Params) : Bool :=
  allDeploymentPos.any fun i =>
    allDeploymentPos.any fun j =>
      decide (i ≠ j) && concurrentlyLive (p.vDeployments i) (p.vDeployments j)
        && decide ((p.vDeployments i).bit = (p.vDeployments j).bit)

/-- Modelled from the spec: construction-time validation of a
ConsensusConfig (section 7). The loader is not among the provided sources;
per the spec it raises ConfigurationError for duplicate deployment bit
positions among concurrently live deployments, for validEpochWindow zero
(field total_valid_epochs), and for epochLength zero (field
dynamic_epoch_length) while dynamic federation is enabled (field
elements_mode); otherwise the configuration is constructed as given. -/
def mkConsensusConfig (p : Params) : Except ConfigurationError Params :=
  if hasDuplicateBits p then Except.error ConfigurationError.duplicateBits
  else if p.total_valid_epochs = 0 then Except.error ConfigurationError.zeroValidEpochWindow
  else if p.elements_mode && decide (p.dynamic_epoch_length = 0) then
    Except.error ConfigurationError.zeroEpochLength
  else Except.ok p

/-- Modelled from the spec: the ThresholdState enumeration of section 3. -/
inductive ThresholdState
  | DEFINED
  | STARTED
  | LOCKED_IN
  | ACTIVE
  | FAILED
deriving DecidableEq

/-- Modelled from the spec: the transition rule of section 4.1, evaluated
at a window boundary b given the state at the previous boundary and the
count of signaling blocks in the previous window. The
ThresholdStateCalculator implementation is not among the provided sources;
nStartTime and nTimeout of the BIP9Deployment from params.h are its
startHeight and timeoutHeight. -/
def thresholdStep (d : BIP9Deployment) (threshold : Nat) (b : Int) (count : Nat) :
    ThresholdState → ThresholdState
  | ThresholdState.DEFINED =>
      if b ≥ d.nTimeout then ThresholdState.FAILED
      else if b ≥ d.nStartTime then ThresholdState.STARTED
      else ThresholdState.DEFINED
  | ThresholdState.STARTED =>
      if b ≥ d.nTimeout then ThresholdState.FAILED
      else if count ≥ threshold then ThresholdState.LOCKED_IN
      else ThresholdState.STARTED
  | ThresholdState.LOCKED_IN => ThresholdState.ACTIVE
  | ThresholdState.ACTIVE => ThresholdState.ACTIVE
  | ThresholdState.FAILED => ThresholdState.FAILED

/-- Modelled from the spec: count of blocks in the window of length len
starting at height lo whose decoded signaling bit is set. -/
def countSignals (signal : Nat → Bool) (lo len : Nat) : Nat :=
  ((List.range len).filter fun k => signal (lo + k)).length

/-- Modelled from the spec: state at the boundary of window n, for window
length W and resolved threshold, walking forward from the genesis window
(which is DEFINED per section 4.1 unless the deployment is always active,
handled in thresholdState below). -/
def stateAtWindow (d : BIP9Deployment) (W threshold : Nat) (signal : Nat → Bool) :
    Nat → ThresholdState
  | 0 => ThresholdState.DEFINED
  | n + 1 =>
      thresholdStep d threshold (((n + 1) * W : Nat) : Int)
        (countSignals signal (n * W) W)
        (stateAtWindow d W threshold signal n)

/-- Modelled from the spec: the contract state(deployment, height) of
section 4.1. If startHeight is the always-active sentinel the state
machine is skipped entirely and the result is ACTIVE; otherwise the state
is the one computed at the boundary of the window containing the height. -/
def thresholdState (d : BIP9Deployment) (W threshold : Nat) (signal : Nat → Bool)
    (h : Nat) : ThresholdState :=
  if d.nStartTime = BIP9Deployment.ALWAYS_ACTIVE then ThresholdState.ACTIVE
  else stateAtWindow d W threshold signal (h / W)

/-- Resolved confirmation-window length for a deployment: the override
nPeriod when present, else the chain-wide nMinerConfirmationWindow
(params.h lines 41-42 and 86). -/
def windowLength (p : Params) (d : BIP9Deployment) : Nat :=
  d.nPeriod.getD p.nMinerConfirmationWindow

/-- Resolved activation threshold for a deployment: the override
nThreshold when present, else the chain-wide
nRuleChangeActivationThreshold (params.h lines 43-44 and 85). -/
def activationThreshold (p : Params) (d : BIP9Deployment) : Nat :=
  d.nThreshold.getD p.nRuleChangeActivationThreshold

/-- Sample configuration used by concrete witnesses: plausible mainnet-like
values, three deployments with pairwise distinct bits. -/
def sampleParams : Params :=
  { hashGenesisBlock := 0
    nSubsidyHalvingInterval := 210000
    BIP16Exception := 0
    BIP34Height := 227931
    BIP34Hash := 0
    BIP65Height := 388381
    BIP66Height := 363725
    CSVHeight := 419328
    SegwitHeight := 481824
    MinBIP9WarningHeight := 483840
    nRuleChangeActivationThreshold := 1916
    nMinerConfirmationWindow := 2016
    vDeployments := fun i =>
      match i with
      | DeploymentPos.DEPLOYMENT_TESTDUMMY => BIP9Deployment.mkDefault 28 0 100
      | DeploymentPos.DEPLOYMENT_TAPROOT => BIP9Deployment.mkDefault 2 0 BIP9Deployment.NO_TIMEOUT
      | DeploymentPos.DEPLOYMENT_DYNA_FED => BIP9Deployment.mkDefault 25 0 BIP9Deployment.NO_TIMEOUT
    powLimit := 0
    fPowAllowMinDifficultyBlocks := false
    fPowNoRetargeting := false
    nPowTargetSpacing := 600
    nPowTargetTimespan := 1209600
    nMinimumChainWork := 0
    defaultAssumeValid := 0
    signet_blocks := false
    signet_challenge := []
    mandatory_coinbase_destination := []
    genesis_subsidy := 5000000000
    subsidy_asset := 0
    connect_genesis_outputs := false
    has_parent_chain := false
    parentChainPowLimit := 0
    pegin_min_depth := 8
    parent_chain_signblockscript := []
    fedpegScript := []
    pegged_asset := 0
    parent_pegged_asset := 0
    genesis_style := ""
    signblockscript := []
    max_block_signature_size := 0
    dynamic_epoch_length := 2 ^ 32 - 1
    first_extension_space := []
    total_valid_epochs := 1
    elements_mode := false }

/-- Configuration violating the validEpochWindow constraint, used to
witness the error side of the construction-time validation. -/
def zeroWindowParams : Params :=
  { sampleParams with total_valid_epochs := 0 }

/-- Configuration holding a deployment whose signaling-bit position is 29,
outside the 0 to 28 range: every field is concrete, so this is a
representable configuration state. -/
def badBitParams : Params :=
  { sampleParams with
    vDeployments := fun i =>
      match i with
      | DeploymentPos.DEPLOYMENT_TESTDUMMY => BIP9Deployment.mkDefault 29 0 100
      | DeploymentPos.DEPLOYMENT_TAPROOT => BIP9Deployment.mkDefault 2 0 BIP9Deployment.NO_TIMEOUT
      | DeploymentPos.DEPLOYMENT_DYNA_FED => BIP9Deployment.mkDefault 25 0 BIP9Deployment.NO_TIMEOUT }

end Consensus

/-- Claim C1: constructing a ConsensusConfig whose validEpochWindow
(total_valid_epochs) is 0, whose epochLength (dynamic_epoch_length) is 0
while dynamic federation is enabled (elements_mode), or whose concurrently
live deployments share a signaling-bit position raises a
ConfigurationError at construction time, so no such configuration is ever
observable: every successfully constructed configuration satisfies none of
the three conditions. -/
theorem c1_configuration_validation :
    (∀ p : Consensus.Params,
        (p.total_valid_epochs = 0 ∨
          (p.elements_mode = true ∧ p.dynamic_epoch_length = 0) ∨
          Consensus.hasDuplicateBits p = true) →
        ∃ e, Consensus.mkConsensusConfig p = Except.error e) ∧
    (∀ p cfg, Consensus.mkConsensusConfig p = Except.ok cfg →
        cfg.total_valid_epochs ≠ 0 ∧
        (cfg.elements_mode = true → cfg.dynamic_epoch_length ≠ 0) ∧
        Consensus.hasDuplicateBits cfg = false) := by
  constructor
  · intro p hbad
    unfold Consensus.mkConsensusConfig
    split
    · exact ⟨_, rfl⟩
    · split
      · exact ⟨_, rfl⟩
      · split
        · exact ⟨_, rfl⟩
        · rename_i h1 h2 h3
          exfalso
          rcases hbad with h | ⟨hm, he⟩ | hd
          · exact h2 h
          · exact h3 (by simp [hm, he])
          · exact h1 hd
  · intro p cfg hok
    unfold Consensus.mkConsensusConfig at hok
    split at hok
    · cases hok
    · split at hok
      · cases hok
      · split at hok
        · cases hok
        · rename_i h1 h2 h3
          injection hok with hpc
          subst hpc
          refine ⟨h2, ?_, ?_⟩
          · intro hm hz
            exact h3 (by simp [hm, hz])
          · simpa using h1

/-- Witness for C1 at concrete configurations: a configuration with
total_valid_epochs zero is rejected with an error, and the sample
configuration accepted by the constructor has a nonzero grace window. -/
theorem c1_configuration_validation_witness :
    (∃ e, Consensus.mkConsensusConfig Consensus.zeroWindowParams = Except.error e) ∧
    Consensus.sampleParams.total_valid_epochs ≠ 0 :=
  ⟨c1_configuration_validation.1 Consensus.zeroWindowParams (Or.inl rfl),
   (c1_configuration_validation.2 Consensus.sampleParams Consensus.sampleParams rfl).1⟩

/-- Claim C2: for every deployment whose nStartTime equals the
always-active sentinel ALWAYS_ACTIVE (the constant -1, strictly less than
every non-negative block height), the state machine is skipped and
state(d, h) is ACTIVE for every height h, for any window length, threshold
and signaling history. -/
theorem c2_always_active (d : Consensus.BIP9Deployment) (W threshold : Nat)
    (signal : Nat → Bool) (h : Nat)
    (hstart : d.nStartTime = Consensus.BIP9Deployment.ALWAYS_ACTIVE) :
    Consensus.thresholdState d W threshold signal h = Consensus.ThresholdState.ACTIVE ∧
    Consensus.BIP9Deployment.ALWAYS_ACTIVE = -1 ∧
    Consensus.BIP9Deployment.ALWAYS_ACTIVE < (h : Int) := by
  refine ⟨?_, rfl, ?_⟩
  · unfold Consensus.thresholdState
    simp [hstart]
  · show (-1 : Int) < (h : Int)
    have := Int.natCast_nonneg h
    omega

/-- Witness for C2 at a concrete always-active deployment and height. -/
theorem c2_always_active_witness :
    Consensus.thresholdState (Consensus.BIP9Deployment.mkDefault 28 (-1) 0) 10 8
      (fun _ => false) 5 = Consensus.ThresholdState.ACTIVE :=
  (c2_always_active (Consensus.BIP9Deployment.mkDefault 28 (-1) 0) 10 8
    (fun _ => false) 5 rfl).1

/-- Claim C3: NO_TIMEOUT is 2^63 - 1, the timeout condition b ≥ nTimeout
is false at every boundary b strictly below 2^63 - 1 when nTimeout is
NO_TIMEOUT, and at such a boundary the transition rule never takes DEFINED
or STARTED to FAILED. -/
theorem c3_no_timeout (d : Consensus.BIP9Deployment) (threshold count : Nat) (b : Int)
    (ht : d.nTimeout = Consensus.BIP9Deployment.NO_TIMEOUT)
    (hb : b < 2 ^ 63 - 1) :
    Consensus.BIP9Deployment.NO_TIMEOUT = 2 ^ 63 - 1 ∧
    ¬ b ≥ d.nTimeout ∧
    Consensus.thresholdStep d threshold b count Consensus.ThresholdState.DEFINED ≠
      Consensus.ThresholdState.FAILED ∧
    Consensus.thresholdStep d threshold b count Consensus.ThresholdState.STARTED ≠
      Consensus.ThresholdState.FAILED := by
  have hlt : ¬ b ≥ d.nTimeout := by
    rw [ht]
    show ¬ b ≥ (2 : Int) ^ 63 - 1
    exact not_le.mpr hb
  refine ⟨rfl, hlt, ?_, ?_⟩
  · show (if b ≥ d.nTimeout then Consensus.ThresholdState.FAILED
      else if b ≥ d.nStartTime then Consensus.ThresholdState.STARTED
      else Consensus.ThresholdState.DEFINED) ≠ Consensus.ThresholdState.FAILED
    rw [if_neg hlt]
    split <;> simp
  · show (if b ≥ d.nTimeout then Consensus.ThresholdState.FAILED
      else if count ≥ threshold then Consensus.ThresholdState.LOCKED_IN
      else Consensus.ThresholdState.STARTED) ≠ Consensus.ThresholdState.FAILED
    rw [if_neg hlt]
    split <;> simp

/-- Witness for C3 at a concrete deployment with nTimeout = NO_TIMEOUT and
boundary 1000. -/
theorem c3_no_timeout_witness :
    Consensus.thresholdStep
      (Consensus.BIP9Deployment.mkDefault 2 0 Consensus.BIP9Deployment.NO_TIMEOUT)
      1916 1000 2016 Consensus.ThresholdState.DEFINED ≠
      Consensus.ThresholdState.FAILED :=
  (c3_no_timeout
    (Consensus.BIP9Deployment.mkDefault 2 0 Consensus.BIP9Deployment.NO_TIMEOUT)
    1916 2016 1000 rfl (by norm_num)).2.2.1

/-- Counterexample to C4 as stated: badBitParams is a representable
configuration (it even passes construction-time validation) holding a
deployment whose signaling-bit position is 29, outside the range 0 to 28. -/
theorem c4_bit_range_counterexample :
    (Consensus.badBitParams.vDeployments
        Consensus.DeploymentPos.DEPLOYMENT_TESTDUMMY).bit = 29 ∧
    ¬ ((Consensus.badBitParams.vDeployments
        Consensus.DeploymentPos.DEPLOYMENT_TESTDUMMY).bit ≤ 28) ∧
    Consensus.mkConsensusConfig Consensus.badBitParams =
      Except.ok Consensus.badBitParams :=
  ⟨rfl, by decide, rfl⟩

/-- Claim C4 (amended): the bit field of a deployment is a plain signed
integer, so for every integer b some representable configuration holds a
deployment whose signaling-bit position equals b; the range 0 to 28 is a
convention of the version-bits scheme, not enforced by the data model. -/
theorem c4_bit_unconstrained (b : Int) :
    ∃ p : Consensus.Params, ∃ i, (p.vDeployments i).bit = b :=
  ⟨{ Consensus.sampleParams with
      vDeployments := fun _ => Consensus.BIP9Deployment.mkDefault b 0 100 },
    Consensus.DeploymentPos.DEPLOYMENT_TESTDUMMY, rfl⟩

/-- Claim C5: in a newly constructed BIP9Deployment the window-length
override nPeriod and the threshold override nThreshold are both the absent
alternative of an explicit Option type, so the chain-wide defaults apply. -/
theorem c5_overrides_absent (bit nStartTime nTimeout : Int) :
    (Consensus.BIP9Deployment.mkDefault bit nStartTime nTimeout).nPeriod =
      (none : Option Nat) ∧
    (Consensus.BIP9Deployment.mkDefault bit nStartTime nTimeout).nThreshold =
      (none : Option Nat) :=
  ⟨rfl, rfl⟩

/-- Claim C6: a default-constructed configuration has dynamic_epoch_length
equal to 2^32 - 1, which is nonzero, and every height h below 2^32 - 1
satisfies h / dynamic_epoch_length = 0, so every such height falls in
epoch 0. -/
theorem c6_default_epoch_length
    (i1 i2 i3 i4 i5 i6 i7 : Int) (n1 n2 : Nat)
    (ds : Consensus.DeploymentPos → Int × Int × Int)
    (b1 b2 : Bool) (i8 i9 i10 : Int) (b3 b4 : Bool) (n3 n4 : Nat)
    (h : Nat) (hh : h < 2 ^ 32 - 1) :
    (Consensus.Params.defaultConstruct i1 i2 i3 i4 i5 i6 i7 n1 n2 ds b1 b2 i8 i9 i10
        b3 b4 n3 n4).dynamic_epoch_length = 2 ^ 32 - 1 ∧
    (Consensus.Params.defaultConstruct i1 i2 i3 i4 i5 i6 i7 n1 n2 ds b1 b2 i8 i9 i10
        b3 b4 n3 n4).dynamic_epoch_length ≠ 0 ∧
    h / (Consensus.Params.defaultConstruct i1 i2 i3 i4 i5 i6 i7 n1 n2 ds b1 b2 i8 i9
        i10 b3 b4 n3 n4).dynamic_epoch_length = 0 := by
  refine ⟨rfl, ?_, ?_⟩
  · show (2 ^ 32 - 1 : Nat) ≠ 0
    norm_num
  show h / (2 ^ 32 - 1) = 0
  exact Nat.div_eq_of_lt hh

/-- Witness for C6 at a concrete default-constructed configuration and
height 7. -/
theorem c6_default_epoch_length_witness :
    7 / (Consensus.Params.defaultConstruct 0 0 0 0 0 0 0 0 0 (fun _ => (0, 0, 0))
        false false 0 0 0 false false 0 0).dynamic_epoch_length = 0 :=
  (c6_default_epoch_length 0 0 0 0 0 0 0 0 0 (fun _ => (0, 0, 0))
    false false 0 0 0 false false 0 0 7 (by norm_num)).2.2

/-- Claim C7: the two operations exposed on a constructed configuration,
DifficultyAdjustmentInterval and ParentChainHasPow, leave every field
unchanged: the receiver state after either call equals the receiver
before it. -/
theorem c7_const_queries_frame (p : Consensus.Params) :
    (p.DifficultyAdjustmentIntervalCall).2 = p ∧ (p.ParentChainHasPowCall).2 = p :=
  ⟨rfl, rfl⟩

/-- Claim C8: ParentChainHasPow returns true exactly when
parent_chain_signblockscript is the empty script. -/
theorem c8_parent_chain_has_pow (p : Consensus.Params) :
    p.ParentChainHasPow = true ↔ p.parent_chain_signblockscript = [] := by
  simp [Consensus.Params.ParentChainHasPow]

/-- Claim C9: when nPowTargetSpacing is nonzero,
DifficultyAdjustmentInterval is the truncating integer quotient
nPowTargetTimespan / nPowTargetSpacing and the undefined
division-by-zero branch is unreachable; when nPowTargetSpacing is zero the
operation has no defined result. -/
theorem c9_difficulty_adjustment_interval (p : Consensus.Params) :
    (p.nPowTargetSpacing ≠ 0 →
      p.DifficultyAdjustmentInterval =
        some (p.nPowTargetTimespan.tdiv p.nPowTargetSpacing)) ∧
    (p.nPowTargetSpacing = 0 → p.DifficultyAdjustmentInterval = none) := by
  constructor
  · intro hnz
    unfold Consensus.Params.DifficultyAdjustmentInterval
    rw [if_neg hnz]
  · intro hz
    unfold Consensus.Params.DifficultyAdjustmentInterval
    rw [if_pos hz]

/-- Witness for C9 at the sample configuration: spacing 600, timespan
1209600, interval 2016. -/
theorem c9_difficulty_adjustment_interval_witness :
    Consensus.sampleParams.nPowTargetSpacing ≠ 0 ∧
    Consensus.sampleParams.DifficultyAdjustmentInterval = some 2016 := by
  have h := (c9_difficulty_adjustment_interval Consensus.sampleParams).1 (by decide)
  exact ⟨by decide, by rw [h]; decide⟩

/-- Claim C10: a default-constructed configuration has total_valid_epochs
equal to 1 (hence at least the spec minimum of 1) and elements_mode equal
to false, so it behaves as a legacy non-dynamic-federation chain. -/
theorem c10_default_legacy
    (i1 i2 i3 i4 i5 i6 i7 : Int) (n1 n2 : Nat)
    (ds : Consensus.DeploymentPos → Int × Int × Int)
    (b1 b2 : Bool) (i8 i9 i10 : Int) (b3 b4 : Bool) (n3 n4 : Nat) :
    (Consensus.Params.defaultConstruct i1 i2 i3 i4 i5 i6 i7 n1 n2 ds b1 b2 i8 i9 i10
        b3 b4 n3 n4).total_valid_epochs = 1 ∧
    1 ≤ (Consensus.Params.defaultConstruct i1 i2 i3 i4 i5 i6 i7 n1 n2 ds b1 b2 i8 i9
        i10 b3 b4 n3 n4).total_valid_epochs ∧
    (Consensus.Params.defaultConstruct i1 i2 i3 i4 i5 i6 i7 n1 n2 ds b1 b2 i8 i9 i10
        b3 b4 n3 n4).elements_mode = false :=
  ⟨rfl, Nat.le_refl 1, rfl⟩
